import Mathlib

/-!
Shallow embedding of the pipeline-orchestration and cancellation core of the
solhat-egui application (files src/cancel/mod.rs, src/taskstatus.rs,
src/analysis/sigma.rs, src/process/mod.rs and the run wrapper in src/main.rs).

Machine floating point values (f64) are modelled as exact rationals; the one
place where IEEE semantics matter (an unguarded division that can divide by
zero) is modelled separately with an Option-valued result where none stands
for the NaN produced by 0.0/0.0.

The two process-wide singletons (the cancel flag in cancel/mod.rs and the
task-status slot in taskstatus.rs) are modelled as one explicit state record
threaded through every operation.
-/

/-- CancelStatus from src/cancel/mod.rs. -/
inductive CancelStatus where
  | NoStatus
  | CancelRequested
  | Cancelled
deriving DecidableEq, Repr

/-- TaskCompletion from src/cancel/mod.rs. -/
inductive TaskCompletion where
  | Cancelled
  | Completed
  | Error (msg : String)
deriving DecidableEq, Repr

/-- Debug formatting of TaskCompletion, as produced by the derived Debug impl
(inner string escaping of the Error payload is elided; no claim depends on
the payload text). -/
def TaskCompletion.debugFmt : TaskCompletion → String
  | .Cancelled => "Cancelled"
  | .Completed => "Completed"
  | .Error m => "Error(\"" ++ m ++ "\")"

/-- Display impl for TaskCompletion from src/cancel/mod.rs:
write(f, "Error of type {:?}", self). -/
def TaskCompletion.display (tc : TaskCompletion) : String :=
  "Error of type " ++ tc.debugFmt

/-- TaskStatus from src/taskstatus.rs: TaskPercentage(String, usize, usize). -/
inductive TaskStatus where
  | TaskPercentage (label : String) (numParts : Nat) (progress : Nat)
deriving DecidableEq, Repr

/-- Combined state of the two process-wide singletons: the CANCEL_TASK
container of src/cancel/mod.rs and the TASK_STATUS_QUEUE container of
src/taskstatus.rs. -/
structure GlobalState where
  cancel : CancelStatus
  taskStatus : Option TaskStatus
deriving DecidableEq, Repr

/-- set_request_cancel from src/cancel/mod.rs: unconditionally stores
CancelRequested. -/
def set_request_cancel (s : GlobalState) : GlobalState :=
  { s with cancel := CancelStatus.CancelRequested }

/-- set_task_cancelled from src/cancel/mod.rs. -/
def set_task_cancelled (s : GlobalState) : GlobalState :=
  { s with cancel := CancelStatus.Cancelled }

/-- reset_cancel_status from src/cancel/mod.rs. -/
def reset_cancel_status (s : GlobalState) : GlobalState :=
  { s with cancel := CancelStatus.NoStatus }

/-- is_cancel_requested from src/cancel/mod.rs. -/
def is_cancel_requested (s : GlobalState) : Bool :=
  s.cancel = CancelStatus.CancelRequested

/-- set_task_status from src/taskstatus.rs: overwrites the single status
slot. -/
def set_task_status (taskName : String) (numParts progress : Nat)
    (s : GlobalState) : GlobalState :=
  { s with taskStatus := some (TaskStatus.TaskPercentage taskName numParts progress) }

/-- set_task_completed from src/taskstatus.rs: clears the status slot. -/
def set_task_completed (s : GlobalState) : GlobalState :=
  { s with taskStatus := none }

/-- is_task_running from src/taskstatus.rs. -/
def is_task_running (s : GlobalState) : Bool :=
  s.taskStatus.isSome

/-- get_task_status from src/taskstatus.rs. -/
def get_task_status (s : GlobalState) : Option TaskStatus :=
  s.taskStatus

/-- check_cancel_status from src/cancel/mod.rs: if cancellation was
requested it runs set_task_cancelled, then set_task_completed, then
reset_cancel_status, and returns Err(Cancelled); otherwise it returns
Ok(Completed) and leaves the state untouched. -/
def check_cancel_status (s : GlobalState) :
    Except TaskCompletion TaskCompletion × GlobalState :=
  if is_cancel_requested s then
    (Except.error TaskCompletion.Cancelled,
      reset_cancel_status (set_task_completed (set_task_cancelled s)))
  else
    (Except.ok TaskCompletion.Completed, s)

/-! Sigma analysis: src/analysis/sigma.rs. -/

/-- Largest finite f64 value, std f64 MAX, used by the source as a sentinel
and as the default for a missing max_sigma bound. -/
def f64ValueMAX : ℚ := (2 ^ 53 - 1) * 2 ^ 971

/-- Most negative finite f64 value, std f64 MIN. -/
def f64ValueMIN : ℚ := -f64ValueMAX

/-- Modelled from the spec: FrameRecord comes from the external solhat crate
(not part of this repository). Section 3 of the spec lists its attributes:
a stable index, a computed 2D center-of-mass offset, a scalar sigma quality
score and a computed rotation angle. The pixel buffer reference is owned by
the external data source and is not represented here. -/
structure FrameRecord where
  index : Nat
  offset_h : ℤ
  offset_v : ℤ
  sigma : ℚ
  computed_rotation : ℚ
deriving DecidableEq, Repr

/-- AnalysisSeries from src/analysis/sigma.rs. -/
structure AnalysisSeries where
  sigma_list : List ℚ
deriving DecidableEq, Repr

/-- AnalysisRange from src/analysis/sigma.rs. -/
structure AnalysisRange where
  min : ℚ
  max : ℚ
deriving DecidableEq, Repr

/-- AnalysisSeries sorted_list from src/analysis/sigma.rs, modelled as the
call on a &self receiver: the method clones sigma_list, sorts the clone
ascending by partial_cmp, reverses it, and returns it together with the
unchanged receiver. -/
def AnalysisSeries.sorted_list_call (a : AnalysisSeries) :
    List ℚ × AnalysisSeries :=
  ((a.sigma_list.insertionSort (fun x y => x ≤ y)).reverse, a)

/-- Value returned by AnalysisSeries sorted_list. -/
def AnalysisSeries.sorted_list (a : AnalysisSeries) : List ℚ :=
  (a.sorted_list_call).1

/-- One step of the minmax scan of src/analysis/sigma.rs:
mn = min(s, mn), mx = max(s, mx). -/
def minmax_step (r : AnalysisRange) (s : ℚ) : AnalysisRange :=
  { min := Min.min s r.min, max := Max.max s r.max }

/-- AnalysisSeries minmax from src/analysis/sigma.rs: mn starts at f64 MAX,
mx starts at f64 MIN, and each element s updates mn = min(s, mn),
mx = max(s, mx). -/
def AnalysisSeries.minmax (a : AnalysisSeries) : AnalysisRange :=
  a.sigma_list.foldl minmax_step { min := f64ValueMAX, max := f64ValueMIN }

/-- Window start index used by AnalysisSeries sma:
start = if i <= half_win then 0 else i - half_win. -/
def smaStart (halfWin i : Nat) : Nat :=
  if i ≤ halfWin then 0 else i - halfWin

/-- Window end index used by AnalysisSeries sma:
end = if i + half_win <= n then i + half_win else n. -/
def smaEnd (halfWin n i : Nat) : Nat :=
  if i + halfWin ≤ n then i + halfWin else n

/-- AnalysisSeries sma from src/analysis/sigma.rs, with f64 arithmetic
modelled as exact rational arithmetic: for each index i of sigma_list the
entry is the sum of the slice sigma_list[start..end] divided by
(end - start). -/
def AnalysisSeries.sma (a : AnalysisSeries) (window : Nat) : List ℚ :=
  let halfWin := window / 2
  let n := a.sigma_list.length
  (List.range n).map fun i =>
    let start := smaStart halfWin i
    let e := smaEnd halfWin n i
    ((a.sigma_list.drop start).take (e - start)).sum / ((e - start : Nat) : ℚ)

/-- AnalysisSeries sma with the IEEE division made explicit: the source
divides by (end - start) as f64 with no guard, so when the window slice is
empty the entry is 0.0/0.0 = NaN, modelled here as none. -/
def AnalysisSeries.sma_ieee (a : AnalysisSeries) (window : Nat) :
    List (Option ℚ) :=
  let halfWin := window / 2
  let n := a.sigma_list.length
  (List.range n).map fun i =>
    let start := smaStart halfWin i
    let e := smaEnd halfWin n i
    if e - start = 0 then none
    else some (((a.sigma_list.drop start).take (e - start)).sum
      / ((e - start : Nat) : ℚ))

/-- Formula for sma exactly as the spec words it in section 4.3: h is the
integer half window, start = 0 if i <= h else i - h, end = n if i + h > n
else i + h, and entry i is the arithmetic mean of the slice S[start:end].
Stated from the spec for comparison against the source translation. -/
def sma_formula_per_spec (S : List ℚ) (window : Nat) : List ℚ :=
  let n := S.length
  let h := window / 2
  (List.range n).map fun i =>
    let start := if i ≤ h then 0 else i - h
    let e := if i + h > n then n else i + h
    ((S.drop start).take (e - start)).sum / ((e - start : Nat) : ℚ)

/-- Quality filtering step of run_sigma_analysis in src/analysis/sigma.rs
(lines 111 to 121): keep the frame records whose sigma lies between
min_sigma (default f64 MIN when unset) and max_sigma (default f64 MAX when
unset), both inclusive, and collect their sigma values in order. -/
def run_sigma_analysis_filter (frame_records : List FrameRecord)
    (min_sigma max_sigma : Option ℚ) : List ℚ :=
  (frame_records.filter fun fr =>
      decide (min_sigma.getD f64ValueMIN ≤ fr.sigma)
        && decide (fr.sigma ≤ max_sigma.getD f64ValueMAX)).map
    fun fr => fr.sigma

/-- frame_analysis_window_size from src/analysis/sigma.rs: a rayon
par_iter().map().collect() over the frame records. The per-frame body
(get_frame, calc_center_of_mass_offset, get_point_quality_estimation)
lives in the external solhat and sciimg crates and is abstracted as the
pure function score applied to each record; collect gathers the results by
input position, so the sequential meaning is List.map. -/
def frame_analysis_window_size (score : FrameRecord → FrameRecord)
    (frame_records : List FrameRecord) : List FrameRecord :=
  frame_records.map score

/-- Modelled from the spec: the execution model of the rayon indexed
parallel collect used by frame_analysis_window_size. Workers complete
individual frames in an unspecified order given by schedule; each completed
frame i writes its scored record into slot i of a preallocated result
vector. A schedule that completes every index exactly once is a permutation
of range n. -/
def par_collect_step (score : FrameRecord → FrameRecord)
    (input : List FrameRecord) (slots : List (Option FrameRecord)) (i : Nat) :
    List (Option FrameRecord) :=
  match input[i]? with
  | some a => slots.set i (some (score a))
  | none => slots

/-- Modelled from the spec: one complete execution of the indexed parallel
collect, completing frames in the order given by schedule. -/
def par_collect_run (score : FrameRecord → FrameRecord)
    (input : List FrameRecord) (schedule : List Nat) :
    List (Option FrameRecord) :=
  schedule.foldl (par_collect_step score input) (List.replicate input.length none)

/-! Pipeline orchestrator: src/process/mod.rs and the run wrapper of
src/main.rs. -/

/-- RunResultsContainer from src/process/mod.rs. The external Image and
ProcessParameters types come from the sciimg and solhat crates and are
kept as type parameters. -/
structure RunResultsContainer (Image Params : Type) where
  was_success : Bool
  image : Option Image
  error : Option String
  context : Option Params
  output_filename : Option String
  num_frames_used : Nat
deriving DecidableEq, Repr

/-- Error type of run_async: an anyhow error is either a TaskCompletion
raised by check_cancel_status or some other error carrying its display
message (the message is taken at the raise site). -/
inductive AnyError where
  | taskCompletion (tc : TaskCompletion)
  | msg (s : String)
deriving DecidableEq, Repr

/-- String produced by calling to_string on the anyhow error, as the run
wrapper in src/main.rs does. -/
def AnyError.display : AnyError → String
  | .taskCompletion tc => tc.display
  | .msg s => s

/-- Modelled from the spec: the external collaborators invoked by
src/process/mod.rs, all from the solhat and sciimg crates (not part of
this repository): calibration-image builds (each combined with its
optional master save), run-context construction, the per-frame scoring
body, frame limiting, rotation analysis, drizzle stacking, limb-darkening
correction, the two 16-bit normalization modes, and image save. The tick
fields give the number of per-frame progress callbacks each external stage
performs. Booleans are the relevant ApplicationState switches. -/
structure ProcessEnv (Image Params : Type) where
  flat_build : Except String Unit
  darkflat_build : Except String Unit
  dark_build : Except String Unit
  bias_build : Except String Unit
  create_context : Except String (List FrameRecord × Params)
  score_frame : FrameRecord → FrameRecord
  frame_limit_determinate : List FrameRecord → Except String (List FrameRecord)
  frame_rotation_analysis : List FrameRecord → Except String (List FrameRecord)
  process_frame_stacking : List FrameRecord → Except String Image
  limb_darkening_correction : Image → Except String Image
  normalize_to_16bit : Image → Image
  normalize_to_16bit_decorrelated : Image → Image
  save_image : Image → Except String Unit
  limit_ticks : Nat
  rotation_ticks : Nat
  stacking_ticks : Nat
  ld_correction : Bool
  solar_radius_pixels : ℚ
  ld_coefficient : ℚ
  decorrelated_colors : Bool

/-- check_cancel_status lifted to the error type of run_async: the question
mark operator converts the TaskCompletion error into an anyhow error. -/
def check_cancel_statusE (s : GlobalState) :
    Except AnyError Unit × GlobalState :=
  match check_cancel_status s with
  | (Except.error tc, s2) => (Except.error (AnyError.taskCompletion tc), s2)
  | (Except.ok _, s2) => (Except.ok Unit.unit, s2)

/-- Per-frame progress callback effect repeated k times: the callback of
each stage increments a shared counter and republishes the stage label with
the updated count. -/
def stage_progress (label : String) (total : Nat) : Nat → GlobalState → GlobalState
  | 0, s => s
  | Nat.succ k, s =>
      set_task_status label total (k + 1) (stage_progress label total k s)

/-- build_solhat_context from src/process/mod.rs: four calibration builds,
each announced through set_task_status and followed by check_cancel_status,
then the run-context construction. -/
def build_solhat_context {Image Params : Type} (env : ProcessEnv Image Params)
    (s : GlobalState) :
    Except AnyError (List FrameRecord × Params) × GlobalState :=
  let s := set_task_status "tasks.processing_master_flat" 0 0 s
  match env.flat_build with
  | Except.error why => (Except.error (AnyError.msg why), s)
  | Except.ok _ =>
  match check_cancel_statusE s with
  | (Except.error e, s) => (Except.error e, s)
  | (Except.ok _, s) =>
  let s := set_task_status "tasks.processing_master_dark_flat" 0 0 s
  match env.darkflat_build with
  | Except.error why => (Except.error (AnyError.msg why), s)
  | Except.ok _ =>
  match check_cancel_statusE s with
  | (Except.error e, s) => (Except.error e, s)
  | (Except.ok _, s) =>
  let s := set_task_status "tasks.processing_master_dark" 0 0 s
  match env.dark_build with
  | Except.error why => (Except.error (AnyError.msg why), s)
  | Except.ok _ =>
  match check_cancel_statusE s with
  | (Except.error e, s) => (Except.error e, s)
  | (Except.ok _, s) =>
  let s := set_task_status "tasks.processing_master_bias" 0 0 s
  match env.bias_build with
  | Except.error why => (Except.error (AnyError.msg why), s)
  | Except.ok _ =>
  match check_cancel_statusE s with
  | (Except.error e, s) => (Except.error e, s)
  | (Except.ok _, s) =>
  match env.create_context with
  | Except.error why => (Except.error (AnyError.msg why), s)
  | Except.ok ctx => (Except.ok ctx, s)

/-- frame_sigma_analysis from src/process/mod.rs: checkpoint, publish the
frame-analysis label, run frame_analysis_window_size (which never returns
an error), with one progress callback per frame. -/
def frame_sigma_analysis {Image Params : Type} (env : ProcessEnv Image Params)
    (records : List FrameRecord) (s : GlobalState) :
    Except AnyError (List FrameRecord) × GlobalState :=
  match check_cancel_statusE s with
  | (Except.error e, s) => (Except.error e, s)
  | (Except.ok _, s) =>
    let n := records.length
    let s := set_task_status "tasks.frame_analysis" n 0 s
    let out := frame_analysis_window_size env.score_frame records
    (Except.ok out, stage_progress "tasks.frame_analysis" n n s)

/-- frame_limiting from src/process/mod.rs: checkpoint, publish the
frame-limits label, call the external frame_limit_determinate. -/
def frame_limiting {Image Params : Type} (env : ProcessEnv Image Params)
    (records : List FrameRecord) (s : GlobalState) :
    Except AnyError (List FrameRecord) × GlobalState :=
  match check_cancel_statusE s with
  | (Except.error e, s) => (Except.error e, s)
  | (Except.ok _, s) =>
    let n := records.length
    let s := set_task_status "tasks.frame_limits" n 0 s
    match env.frame_limit_determinate records with
    | Except.error why => (Except.error (AnyError.msg why), s)
    | Except.ok out =>
        (Except.ok out, stage_progress "tasks.frame_limits" n env.limit_ticks s)

/-- frame_rotation from src/process/mod.rs: checkpoint, publish the
parallactic-angle label, call the external frame_rotation_analysis. -/
def frame_rotation {Image Params : Type} (env : ProcessEnv Image Params)
    (records : List FrameRecord) (s : GlobalState) :
    Except AnyError (List FrameRecord) × GlobalState :=
  match check_cancel_statusE s with
  | (Except.error e, s) => (Except.error e, s)
  | (Except.ok _, s) =>
    let n := records.length
    let s := set_task_status "tasks.parallactic_angle" n 0 s
    match env.frame_rotation_analysis records with
    | Except.error why => (Except.error (AnyError.msg why), s)
    | Except.ok out =>
        (Except.ok out, stage_progress "tasks.parallactic_angle" n env.rotation_ticks s)

/-- drizzle_stacking from src/process/mod.rs: checkpoint, publish the
stacking label, call the external process_frame_stacking. -/
def drizzle_stacking {Image Params : Type} (env : ProcessEnv Image Params)
    (records : List FrameRecord) (s : GlobalState) :
    Except AnyError Image × GlobalState :=
  match check_cancel_statusE s with
  | (Except.error e, s) => (Except.error e, s)
  | (Except.ok _, s) =>
    let n := records.length
    let s := set_task_status "tasks.stacking" n 0 s
    match env.process_frame_stacking records with
    | Except.error why => (Except.error (AnyError.msg why), s)
    | Except.ok img =>
        (Except.ok img, stage_progress "tasks.stacking" n env.stacking_ticks s)

/-- run_async from src/process/mod.rs: context build, sigma analysis,
limiting, rotation, then the empty check guarding stacking, optional
limb-darkening correction, normalization, save, and assembly of the
success container. -/
def run_async {Image Params : Type} (env : ProcessEnv Image Params)
    (output_filename : String) (s : GlobalState) :
    Except AnyError (RunResultsContainer Image Params) × GlobalState :=
  match build_solhat_context env s with
  | (Except.error e, s) => (Except.error e, s)
  | (Except.ok ctx, s) =>
  match frame_sigma_analysis env ctx.1 s with
  | (Except.error e, s) => (Except.error e, s)
  | (Except.ok records, s) =>
  match frame_limiting env records s with
  | (Except.error e, s) => (Except.error e, s)
  | (Except.ok records, s) =>
  match frame_rotation env records s with
  | (Except.error e, s) => (Except.error e, s)
  | (Except.ok records, s) =>
  if records.isEmpty then
    (Except.error (AnyError.msg "Zero frames to stack. Cannot continue"), s)
  else
    match drizzle_stacking env records s with
    | (Except.error e, s) => (Except.error e, s)
    | (Except.ok stacked, s) =>
    let ldStep : Except String Image × GlobalState :=
      if env.ld_correction then
        (env.limb_darkening_correction stacked,
          set_task_status "tasks.apply_limb_correction" 0 0 s)
      else (Except.ok stacked, s)
    match ldStep with
    | (Except.error why, s) => (Except.error (AnyError.msg why), s)
    | (Except.ok corrected, s) =>
    let s := set_task_status "tasks.normalizing_data" 0 0 s
    let corrected :=
      if env.decorrelated_colors then env.normalize_to_16bit_decorrelated corrected
      else env.normalize_to_16bit corrected
    let s := set_task_status "tasks.saving_to_disk" 0 0 s
    let s := set_task_status "tasks.saving" 0 0 s
    match env.save_image corrected with
    | Except.error why => (Except.error (AnyError.msg why), s)
    | Except.ok _ =>
      let s := set_task_status "tasks.done" 1 1 s
      (Except.ok
        { was_success := true
          image := some corrected
          error := none
          context := some ctx.2
          output_filename := some output_filename
          num_frames_used := records.length }, s)

/-- run from src/main.rs: set the starting status, execute run_async, map
an error to the failure container through unwrap_or_else (error message
taken from to_string of the anyhow error), deliver the container to the
shared result slot (modelled as the returned value), and clear the task
status. -/
def run {Image Params : Type} (env : ProcessEnv Image Params)
    (output_filename : String) (s : GlobalState) :
    RunResultsContainer Image Params × GlobalState :=
  let s := set_task_status "tasks.starting" 1 1 s
  let r := run_async env output_filename s
  let results :=
    match r.1 with
    | Except.ok res => res
    | Except.error why =>
        { was_success := false
          image := none
          error := some why.display
          context := none
          output_filename := none
          num_frames_used := 0 }
  (results, set_task_completed r.2)

/-! Concrete instances used by witnesses and counterexamples. -/

/-- Concrete external environment in which every external stage succeeds
trivially and limiting discards all frames. -/
def trivialEnv : ProcessEnv Nat Unit :=
  { flat_build := Except.ok Unit.unit
    darkflat_build := Except.ok Unit.unit
    dark_build := Except.ok Unit.unit
    bias_build := Except.ok Unit.unit
    create_context := Except.ok ([], Unit.unit)
    score_frame := fun fr => fr
    frame_limit_determinate := fun _ => Except.ok []
    frame_rotation_analysis := fun l => Except.ok l
    process_frame_stacking := fun _ => Except.ok 0
    limb_darkening_correction := fun i => Except.ok i
    normalize_to_16bit := fun i => i
    normalize_to_16bit_decorrelated := fun i => i
    save_image := fun _ => Except.ok Unit.unit
    limit_ticks := 0
    rotation_ticks := 0
    stacking_ticks := 0
    ld_correction := false
    solar_radius_pixels := 0
    ld_coefficient := 0
    decorrelated_colors := false }

/-- Four concrete frame records with sigma scores 5, 50, 500, 5000. -/
def sampleFrames : List FrameRecord :=
  [{ index := 0, offset_h := 0, offset_v := 0, sigma := 5, computed_rotation := 0 },
   { index := 1, offset_h := 0, offset_v := 0, sigma := 50, computed_rotation := 0 },
   { index := 2, offset_h := 0, offset_v := 0, sigma := 500, computed_rotation := 0 },
   { index := 3, offset_h := 0, offset_v := 0, sigma := 5000, computed_rotation := 0 }]

/-- Concrete scoring function for the parallel-collect witness. -/
def bumpSigma (fr : FrameRecord) : FrameRecord :=
  { fr with index := fr.index + 1 }

/-! Helper lemmas. -/

theorem check_cancel_status_requested (s : GlobalState)
    (h : s.cancel = CancelStatus.CancelRequested) :
    check_cancel_status s =
      (Except.error TaskCompletion.Cancelled,
        { cancel := CancelStatus.NoStatus, taskStatus := none }) := by
  simp [check_cancel_status, is_cancel_requested, h, reset_cancel_status,
    set_task_completed, set_task_cancelled]

theorem check_cancel_status_quiet (s : GlobalState)
    (h : s.cancel ≠ CancelStatus.CancelRequested) :
    check_cancel_status s = (Except.ok TaskCompletion.Completed, s) := by
  simp [check_cancel_status, is_cancel_requested, h]

theorem check_cancel_statusE_quiet (s : GlobalState)
    (h : s.cancel ≠ CancelStatus.CancelRequested) :
    check_cancel_statusE s = (Except.ok Unit.unit, s) := by
  simp [check_cancel_statusE, check_cancel_status_quiet s h]

theorem set_task_status_cancel (label : String) (n p : Nat) (s : GlobalState) :
    (set_task_status label n p s).cancel = s.cancel := rfl

theorem stage_progress_cancel (label : String) (total : Nat) :
    ∀ (k : Nat) (s : GlobalState), (stage_progress label total k s).cancel = s.cancel := by
  intro k
  induction k with
  | zero => intro s; rfl
  | succ k ih => intro s; simp [stage_progress, set_task_status, ih]

theorem par_collect_step_length (score : FrameRecord → FrameRecord)
    (input : List FrameRecord) (slots : List (Option FrameRecord)) (i : Nat) :
    (par_collect_step score input slots i).length = slots.length := by
  unfold par_collect_step
  cases input[i]? <;> simp

theorem par_collect_foldl_length (score : FrameRecord → FrameRecord)
    (input : List FrameRecord) :
    ∀ (sched : List Nat) (slots : List (Option FrameRecord)),
      (sched.foldl (par_collect_step score input) slots).length = slots.length := by
  intro sched
  induction sched with
  | nil => intro slots; rfl
  | cons i rest ih =>
      intro slots
      rw [List.foldl_cons, ih, par_collect_step_length]

theorem par_collect_foldl_getElem? (score : FrameRecord → FrameRecord)
    (input : List FrameRecord) :
    ∀ (sched : List Nat) (slots : List (Option FrameRecord)),
      slots.length = input.length →
      ∀ (j : Nat), j < input.length →
      (sched.foldl (par_collect_step score input) slots)[j]?
        = if j ∈ sched then (input[j]?).map (fun a => some (score a))
          else slots[j]? := by
  intro sched
  induction sched with
  | nil =>
      intro slots _ j _
      simp
  | cons i rest ih =>
      intro slots hlen j hj
      rw [List.foldl_cons,
        ih _ (by rw [par_collect_step_length]; exact hlen) j hj]
      by_cases hjr : j ∈ rest
      · simp [hjr]
      · simp only [hjr, if_false]
        by_cases hji : j = i
        · subst hji
          unfold par_collect_step
          have ha : input[j]? = some input[j] := List.getElem?_eq_getElem hj
          rw [ha]
          rw [List.getElem?_set_eq_of_lt _ (by rw [hlen]; exact hj)]
          simp
        · unfold par_collect_step
          cases h : input[i]? with
          | none => simp [hji, hjr]
          | some a =>
              rw [List.getElem?_set_ne (Ne.symm hji)]
              simp [hji, hjr]

theorem par_collect_run_of_perm (score : FrameRecord → FrameRecord)
    (input : List FrameRecord) (sched : List Nat)
    (hp : sched.Perm (List.range input.length)) :
    par_collect_run score input sched
      = (frame_analysis_window_size score input).map some := by
  apply List.ext_getElem?
  intro j
  by_cases hj : j < input.length
  · rw [par_collect_run,
      par_collect_foldl_getElem? score input sched _ (by simp) j hj]
    have hmem : j ∈ sched := hp.mem_iff.2 (List.mem_range.2 hj)
    rw [if_pos hmem, frame_analysis_window_size, List.getElem?_map,
      List.getElem?_map]
    cases input[j]? <;> rfl
  · have h1 : (par_collect_run score input sched).length ≤ j := by
      rw [par_collect_run, par_collect_foldl_length]
      simp
      omega
    have h2 : ((frame_analysis_window_size score input).map some).length ≤ j := by
      simp [frame_analysis_window_size]
      omega
    rw [List.getElem?_eq_none h1, List.getElem?_eq_none h2]

/-! Claim C2. -/

/-- Claim C2, counterexample: the claim states that after check() observes
CancelRequested the resulting Cancelled state persists until reset() is
explicitly called; on the code, check_cancel_status itself calls
reset_cancel_status, so from a concrete CancelRequested state the cancel
state after check is NoStatus, not Cancelled. -/
theorem C2_counterexample :
    (check_cancel_status
      { cancel := CancelStatus.CancelRequested,
        taskStatus := some (TaskStatus.TaskPercentage "Frame Analysis" 4 2) }).2.cancel
      ≠ CancelStatus.Cancelled := by decide

/-- Claim C2, amended: for every invocation of check(): if the cancel state
is CancelRequested, it clears the progress status slot, returns the
Cancelled signal, and resets the cancel state to NoStatus itself (the
transient Cancelled state does not persist after check returns, so no
explicit reset() is needed before the next run); if the state is not
CancelRequested, check() returns the Continue (Completed) signal and
changes nothing. -/
theorem C2_check_cancel_status (s : GlobalState) :
    (s.cancel = CancelStatus.CancelRequested →
      check_cancel_status s =
        (Except.error TaskCompletion.Cancelled,
          { cancel := CancelStatus.NoStatus, taskStatus := none }))
    ∧ (s.cancel ≠ CancelStatus.CancelRequested →
      check_cancel_status s = (Except.ok TaskCompletion.Completed, s)) :=
  ⟨check_cancel_status_requested s, check_cancel_status_quiet s⟩

/-- Claim C2, witness: both branches of the amended theorem evaluated at
concrete states. -/
theorem C2_witness :
    check_cancel_status
        { cancel := CancelStatus.CancelRequested,
          taskStatus := some (TaskStatus.TaskPercentage "Frame Analysis" 4 2) }
      = (Except.error TaskCompletion.Cancelled,
          { cancel := CancelStatus.NoStatus, taskStatus := none })
    ∧ check_cancel_status { cancel := CancelStatus.NoStatus, taskStatus := none }
      = (Except.ok TaskCompletion.Completed,
          { cancel := CancelStatus.NoStatus, taskStatus := none }) :=
  ⟨(C2_check_cancel_status _).1 rfl, (C2_check_cancel_status _).2 (by decide)⟩

/-! Claim C9. -/

/-- Claim C9, counterexample: the claim states that request_cancel() leaves
an already Cancelled state unchanged; on the code, set_request_cancel
stores CancelRequested unconditionally, so from a concrete Cancelled state
the result is CancelRequested, not Cancelled. -/
theorem C9_counterexample :
    (set_request_cancel { cancel := CancelStatus.Cancelled, taskStatus := none }).cancel
      ≠ CancelStatus.Cancelled := by decide

/-- Claim C9, amended: for every starting cancel state, request_cancel()
unconditionally sets the state to CancelRequested (including from
Cancelled), touches nothing else, returns nothing, and is idempotent:
applying it twice from any state yields the same state as applying it
once. -/
theorem C9_set_request_cancel (s : GlobalState) :
    (set_request_cancel s).cancel = CancelStatus.CancelRequested
    ∧ (set_request_cancel s).taskStatus = s.taskStatus
    ∧ set_request_cancel (set_request_cancel s) = set_request_cancel s :=
  ⟨rfl, rfl, rfl⟩

/-! Claim C1. -/

/-- Claim C1, counterexample: the claim states that the terminal RunResult
of a cancelled run has no image and no error message; on the code, a run
cancelled at the first orchestrator checkpoint delivers a container whose
error field is Some("Error of type Cancelled") (produced by the
TaskCompletion Display impl through unwrap_or_else in the run wrapper), so
the error message is present. -/
theorem C1_counterexample :
    (run trivialEnv "output.tif"
        { cancel := CancelStatus.CancelRequested, taskStatus := none }).1.image = none
    ∧ (run trivialEnv "output.tif"
        { cancel := CancelStatus.CancelRequested, taskStatus := none }).1.error
        ≠ none := by
  exact ⟨by decide, by decide⟩

/-- Claim C1, amended: for every run in which cancellation is requested and
then observed at the first orchestrator checkpoint, the terminal RunResult
delivered to the shared result slot has no image but carries the error
message "Error of type Cancelled"; a cancelled run is therefore
distinguishable from other failed runs only by that message text, not by
the absence of an error message, and the progress slot is cleared. -/
theorem C1_cancelled_run_delivery {Image Params : Type}
    (env : ProcessEnv Image Params) (fname : String) (s : GlobalState)
    (hc : s.cancel = CancelStatus.CancelRequested)
    (hflat : env.flat_build = Except.ok Unit.unit) :
    (run env fname s).1 =
      { was_success := false, image := none,
        error := some "Error of type Cancelled",
        context := none, output_filename := none, num_frames_used := 0 }
    ∧ (run env fname s).2.taskStatus = none := by
  have h2 : (set_task_status "tasks.processing_master_flat" 0 0
      (set_task_status "tasks.starting" 1 1 s)).cancel = CancelStatus.CancelRequested := hc
  constructor <;>
    simp [run, run_async, build_solhat_context, hflat, check_cancel_statusE,
      check_cancel_status_requested _ h2, AnyError.display, TaskCompletion.display,
      TaskCompletion.debugFmt, set_task_completed]

/-- Claim C1, witness: the amended theorem applied to the concrete trivial
environment and a state with a pending cancellation request. -/
theorem C1_witness :
    (run trivialEnv "solar.tif"
        { cancel := CancelStatus.CancelRequested, taskStatus := none }).1 =
      { was_success := false, image := none,
        error := some "Error of type Cancelled",
        context := none, output_filename := none, num_frames_used := 0 }
    ∧ (run trivialEnv "solar.tif"
        { cancel := CancelStatus.CancelRequested, taskStatus := none }).2.taskStatus
        = none :=
  C1_cancelled_run_delivery trivialEnv "solar.tif"
    { cancel := CancelStatus.CancelRequested, taskStatus := none } rfl rfl

/-! Claim C3. -/

/-- Claim C3: for every run in which zero frame records survive the
limiting stage (and the external per-frame rotation stage maps an empty
record list to an empty record list), the orchestrator returns a failure
RunResult carrying the empty-input error message "Zero frames to stack.
Cannot continue", and the stacking stage function is never invoked: the
delivered result is identical for every possible stacking function. -/
theorem C3_zero_frames_after_limiting {Image Params : Type}
    (env : ProcessEnv Image Params) (fname : String) (s : GlobalState)
    (records : List FrameRecord) (params : Params)
    (hcancel : s.cancel = CancelStatus.NoStatus)
    (hflat : env.flat_build = Except.ok Unit.unit)
    (hdarkflat : env.darkflat_build = Except.ok Unit.unit)
    (hdark : env.dark_build = Except.ok Unit.unit)
    (hbias : env.bias_build = Except.ok Unit.unit)
    (hctx : env.create_context = Except.ok (records, params))
    (hlimit : env.frame_limit_determinate (records.map env.score_frame)
        = Except.ok [])
    (hrot : env.frame_rotation_analysis [] = Except.ok []) :
    (run env fname s).1 =
      { was_success := false, image := none,
        error := some "Zero frames to stack. Cannot continue",
        context := none, output_filename := none, num_frames_used := 0 }
    ∧ ∀ stackF : List FrameRecord → Except String Image,
        run { env with process_frame_stacking := stackF } fname s
          = run env fname s := by
  constructor
  · simp [run, run_async, build_solhat_context, frame_sigma_analysis,
      frame_limiting, frame_rotation, frame_analysis_window_size,
      hflat, hdarkflat, hdark, hbias, hctx, hlimit, hrot,
      check_cancel_statusE_quiet, set_task_status_cancel,
      stage_progress_cancel, hcancel, AnyError.display, set_task_completed]
  · intro stackF
    simp [run, run_async, build_solhat_context, frame_sigma_analysis,
      frame_limiting, frame_rotation, frame_analysis_window_size,
      hflat, hdarkflat, hdark, hbias, hctx, hlimit, hrot,
      check_cancel_statusE_quiet, set_task_status_cancel,
      stage_progress_cancel, hcancel, AnyError.display, set_task_completed]

/-- Claim C3, witness: the theorem applied to the trivial environment,
whose limiting stage discards every frame, starting from the quiescent
state; the run that would be produced with an always-failing stacking
function is identical, so stacking was not invoked. -/
theorem C3_witness :
    (run trivialEnv "stack.tif"
        { cancel := CancelStatus.NoStatus, taskStatus := none }).1 =
      { was_success := false, image := none,
        error := some "Zero frames to stack. Cannot continue",
        context := none, output_filename := none, num_frames_used := 0 }
    ∧ run { trivialEnv with
            process_frame_stacking := fun _ => Except.error "stack invoked" }
          "stack.tif" { cancel := CancelStatus.NoStatus, taskStatus := none }
        = run trivialEnv "stack.tif"
          { cancel := CancelStatus.NoStatus, taskStatus := none } :=
  ⟨(C3_zero_frames_after_limiting trivialEnv "stack.tif"
      { cancel := CancelStatus.NoStatus, taskStatus := none } [] Unit.unit
      rfl rfl rfl rfl rfl rfl rfl rfl).1,
   (C3_zero_frames_after_limiting trivialEnv "stack.tif"
      { cancel := CancelStatus.NoStatus, taskStatus := none } [] Unit.unit
      rfl rfl rfl rfl rfl rfl rfl rfl).2
     (fun _ => Except.error "stack invoked")⟩

/-! Claim C4. -/

/-- Claim C4: for every input frame collection and every completion
schedule that finishes each frame exactly once (a permutation of the index
range), the parallel scoring pass writes its per-frame results by input
position, so the collected vector equals the scored copies in original
input order (entry j is the scored copy of the j-th input frame), and any
two such schedules produce identical output vectors: the result is
deterministic and independent of worker completion order. -/
theorem C4_parallel_scoring_order (score : FrameRecord → FrameRecord)
    (input : List FrameRecord) (sched1 sched2 : List Nat)
    (h1 : sched1.Perm (List.range input.length))
    (h2 : sched2.Perm (List.range input.length)) :
    par_collect_run score input sched1
        = (frame_analysis_window_size score input).map some
    ∧ (∀ (j : Nat) (hj : j < input.length),
        (par_collect_run score input sched1)[j]?
          = some (some (score (input.get ⟨j, hj⟩))))
    ∧ par_collect_run score input sched1 = par_collect_run score input sched2 := by
  refine ⟨par_collect_run_of_perm score input sched1 h1, ?_, ?_⟩
  · intro j hj
    rw [par_collect_run_of_perm score input sched1 h1, List.getElem?_map,
      frame_analysis_window_size, List.getElem?_map,
      List.getElem?_eq_getElem hj]
    rfl
  · rw [par_collect_run_of_perm score input sched1 h1,
      par_collect_run_of_perm score input sched2 h2]

/-- Claim C4, witness: two concrete completion schedules over three
concrete frames give the input-ordered scored vector, and agree. -/
theorem C4_witness :
    par_collect_run bumpSigma (sampleFrames.take 3) [2, 0, 1]
        = (frame_analysis_window_size bumpSigma (sampleFrames.take 3)).map some
    ∧ (par_collect_run bumpSigma (sampleFrames.take 3) [2, 0, 1])[1]?
        = some (some (bumpSigma ((sampleFrames.take 3).get ⟨1, by decide⟩)))
    ∧ par_collect_run bumpSigma (sampleFrames.take 3) [2, 0, 1]
        = par_collect_run bumpSigma (sampleFrames.take 3) [1, 2, 0] :=
  ⟨(C4_parallel_scoring_order bumpSigma (sampleFrames.take 3) [2, 0, 1] [1, 2, 0]
      (by decide) (by decide)).1,
   (C4_parallel_scoring_order bumpSigma (sampleFrames.take 3) [2, 0, 1] [1, 2, 0]
      (by decide) (by decide)).2.1 1 (by decide),
   (C4_parallel_scoring_order bumpSigma (sampleFrames.take 3) [2, 0, 1] [1, 2, 0]
      (by decide) (by decide)).2.2⟩

/-! Claim C5. -/

/-- Claim C5: the post-scoring filtering step keeps exactly those frames
whose sigma score lies in the closed interval between min_sigma and
max_sigma (both endpoints inclusive; a missing bound defaults to the
extreme f64 value), preserving original relative order: the collected
sigma sequence equals the sigma projection of the input filtered by the
closed-interval predicate, and is a sublist of the full sigma projection;
in particular sigma scores 5, 50, 500, 5000 with bounds 10 and 1000 yield
exactly 50 then 500, in that order. -/
theorem C5_sigma_filter :
    (∀ (frame_records : List FrameRecord) (min_sigma max_sigma : Option ℚ),
      run_sigma_analysis_filter frame_records min_sigma max_sigma
          = (frame_records.map (fun fr => fr.sigma)).filter
              (fun sg => decide (min_sigma.getD f64ValueMIN ≤ sg)
                && decide (sg ≤ max_sigma.getD f64ValueMAX))
      ∧ List.Sublist (run_sigma_analysis_filter frame_records min_sigma max_sigma)
          (frame_records.map (fun fr => fr.sigma)))
    ∧ run_sigma_analysis_filter sampleFrames (some 10) (some 1000) = [50, 500] := by
  refine ⟨fun frame_records min_sigma max_sigma => ⟨?_, ?_⟩, by decide⟩
  · rw [run_sigma_analysis_filter]
    induction frame_records with
    | nil => rfl
    | cons fr t ih =>
        by_cases h : decide (min_sigma.getD f64ValueMIN ≤ fr.sigma)
              && decide (fr.sigma ≤ max_sigma.getD f64ValueMAX)
            <;> simp [List.filter_cons, h, ih]
  · exact List.Sublist.map _ (List.filter_sublist _)

/-! Claim C6. -/

/-- Claim C6: for every series and window, sma returns a sequence of the
same length as the underlying sequence whose entry i matches the spec
formula exactly (h = window / 2 by integer division, start = 0 if i <= h
else i - h, end = n if i + h > n else i + h, entry = mean of the slice
from start to end); in particular sma on [1, 2, 3, 4, 5] with window 2 is
[1, 3/2, 5/2, 7/2, 9/2]. -/
theorem C6_sma_matches_spec :
    (∀ (a : AnalysisSeries) (window : Nat),
      a.sma window = sma_formula_per_spec a.sigma_list window
      ∧ (a.sma window).length = a.sigma_list.length)
    ∧ (AnalysisSeries.mk [1, 2, 3, 4, 5]).sma 2 = [1, 3/2, 5/2, 7/2, 9/2] := by
  constructor
  · intro a window
    constructor
    · rw [AnalysisSeries.sma, sma_formula_per_spec]
      apply List.map_congr_left
      intro i _
      have he : smaEnd (window / 2) a.sigma_list.length i
          = if i + window / 2 > a.sigma_list.length then a.sigma_list.length
            else i + window / 2 := by
        unfold smaEnd
        rcases le_or_lt (i + window / 2) a.sigma_list.length with h | h
        · rw [if_pos h, if_neg (by omega)]
        · rw [if_neg (by omega), if_pos h]
      rw [smaStart, he]
    · simp [AnalysisSeries.sma]
  · norm_num [AnalysisSeries.sma, smaStart, smaEnd, List.range_succ]

/-! Claim C7. -/

theorem minmax_foldl_spec (l : List ℚ) :
    ∀ (r : AnalysisRange),
      ((l.foldl minmax_step r).min = r.min ∨ (l.foldl minmax_step r).min ∈ l)
      ∧ (l.foldl minmax_step r).min ≤ r.min
      ∧ (∀ x ∈ l, (l.foldl minmax_step r).min ≤ x)
      ∧ ((l.foldl minmax_step r).max = r.max ∨ (l.foldl minmax_step r).max ∈ l)
      ∧ r.max ≤ (l.foldl minmax_step r).max
      ∧ (∀ x ∈ l, x ≤ (l.foldl minmax_step r).max) := by
  induction l with
  | nil => intro r; simp
  | cons a t ih =>
      intro r
      obtain ⟨hm1, hm2, hm3, hx1, hx2, hx3⟩ := ih (minmax_step r a)
      have hsmin : (minmax_step r a).min = Min.min a r.min := rfl
      have hsmax : (minmax_step r a).max = Max.max a r.max := rfl
      rw [List.foldl_cons]
      refine ⟨?_, ?_, ?_, ?_, ?_, ?_⟩
      · rcases hm1 with heq | hmem
        · rw [hsmin] at heq
          rcases min_choice a r.min with hc | hc
          · exact Or.inr (by rw [heq, hc]; exact List.mem_cons_self a t)
          · exact Or.inl (by rw [heq, hc])
        · exact Or.inr (List.mem_cons_of_mem a hmem)
      · exact le_trans hm2 (by rw [hsmin]; exact min_le_right a r.min)
      · intro x hx
        rcases List.mem_cons.1 hx with hxa | hxt
        · subst hxa
          exact le_trans hm2 (by rw [hsmin]; exact min_le_left x r.min)
        · exact hm3 x hxt
      · rcases hx1 with heq | hmem
        · rw [hsmax] at heq
          rcases max_choice a r.max with hc | hc
          · exact Or.inr (by rw [heq, hc]; exact List.mem_cons_self a t)
          · exact Or.inl (by rw [heq, hc])
        · exact Or.inr (List.mem_cons_of_mem a hmem)
      · exact le_trans (by rw [hsmax]; exact le_max_right a r.max) hx2
      · intro x hx
        rcases List.mem_cons.1 hx with hxa | hxt
        · subst hxa
          exact le_trans (by rw [hsmax]; exact le_max_left x r.max) hx2
        · exact hx3 x hxt

/-- Claim C7: for every series whose elements lie in the representable f64
range, a non-empty sigma sequence yields minmax equal to the true minimum
and maximum as a naive scan computes them (each bound is attained by a
member and bounds every member), while the empty sequence yields the
sentinel extremes (f64 MAX as min and f64 MIN as max) instead of failing. -/
theorem C7_minmax_range (a : AnalysisSeries) :
    (a.sigma_list = [] →
      a.minmax = { min := f64ValueMAX, max := f64ValueMIN })
    ∧ (a.sigma_list ≠ [] →
      (∀ x ∈ a.sigma_list, f64ValueMIN ≤ x ∧ x ≤ f64ValueMAX) →
      (a.minmax.min ∈ a.sigma_list ∧ ∀ x ∈ a.sigma_list, a.minmax.min ≤ x)
      ∧ (a.minmax.max ∈ a.sigma_list ∧ ∀ x ∈ a.sigma_list, x ≤ a.minmax.max)) := by
  have hM : a.minmax
      = a.sigma_list.foldl minmax_step { min := f64ValueMAX, max := f64ValueMIN } := rfl
  constructor
  · intro h
    rw [hM, h]
    rfl
  · intro hne hb
    obtain ⟨hm1, hm2, hm3, hx1, hx2, hx3⟩ :=
      minmax_foldl_spec a.sigma_list { min := f64ValueMAX, max := f64ValueMIN }
    rw [hM]
    refine ⟨⟨?_, hm3⟩, ⟨?_, hx3⟩⟩
    · rcases hm1 with heq | hmem
      · obtain ⟨y, hy⟩ := List.exists_mem_of_ne_nil a.sigma_list hne
        have h1 := hm3 y hy
        have h2 : y ≤ (a.sigma_list.foldl minmax_step
            { min := f64ValueMAX, max := f64ValueMIN }).min := by
          rw [heq]
          exact (hb y hy).2
        have : y = (a.sigma_list.foldl minmax_step
            { min := f64ValueMAX, max := f64ValueMIN }).min := le_antisymm h2 h1
        exact this ▸ hy
      · exact hmem
    · rcases hx1 with heq | hmem
      · obtain ⟨y, hy⟩ := List.exists_mem_of_ne_nil a.sigma_list hne
        have h1 := hx3 y hy
        have h2 : (a.sigma_list.foldl minmax_step
            { min := f64ValueMAX, max := f64ValueMIN }).max ≤ y := by
          rw [heq]
          exact (hb y hy).1
        have : y = (a.sigma_list.foldl minmax_step
            { min := f64ValueMAX, max := f64ValueMIN }).max := le_antisymm h1 h2
        exact this ▸ hy
      · exact hmem

/-- Claim C7, witness: on the concrete series [3, 1, 2] the computed
minimum is a member of the series and is at most the member 2. -/
theorem C7_witness :
    (AnalysisSeries.mk [3, 1, 2]).minmax.min ∈ (AnalysisSeries.mk [3, 1, 2]).sigma_list
    ∧ (AnalysisSeries.mk [3, 1, 2]).minmax.min ≤ 2
    ∧ (AnalysisSeries.mk [3, 1, 2]).minmax.max ∈ (AnalysisSeries.mk [3, 1, 2]).sigma_list
    ∧ 2 ≤ (AnalysisSeries.mk [3, 1, 2]).minmax.max :=
  ⟨((C7_minmax_range (AnalysisSeries.mk [3, 1, 2])).2 (by decide)
      (by norm_num [f64ValueMIN, f64ValueMAX])).1.1,
   ((C7_minmax_range (AnalysisSeries.mk [3, 1, 2])).2 (by decide)
      (by norm_num [f64ValueMIN, f64ValueMAX])).1.2 2 (by norm_num),
   ((C7_minmax_range (AnalysisSeries.mk [3, 1, 2])).2 (by decide)
      (by norm_num [f64ValueMIN, f64ValueMAX])).2.1,
   ((C7_minmax_range (AnalysisSeries.mk [3, 1, 2])).2 (by decide)
      (by norm_num [f64ValueMIN, f64ValueMAX])).2.2 2 (by norm_num)⟩

/-! Claim C8. -/

/-- Claim C8: for every series, sorted_list returns a permutation of the
underlying sigma sequence that is non-increasing from largest to smallest,
and the underlying sequence held by the series is left unchanged by the
call (the sort operates on a clone). -/
theorem C8_sorted_list (a : AnalysisSeries) :
    (a.sorted_list).Perm a.sigma_list
    ∧ List.Sorted (fun x y : ℚ => x ≥ y) a.sorted_list
    ∧ (a.sorted_list_call).2 = a := by
  refine ⟨?_, ?_, rfl⟩
  · exact (List.reverse_perm _).trans (List.perm_insertionSort _ _)
  · apply List.pairwise_reverse.2
    have h := List.sorted_insertionSort (fun x y : ℚ => x ≤ y) a.sigma_list
    exact h

/-! Claim C10. -/

/-- Claim C10: for every series and every window value of 0 or 1 (so the
integer half window window / 2 is 0), the sma pass still returns a vector
of the length of the underlying sequence, but every entry divides the sum
of an empty slice by zero, so under f64 semantics every entry is NaN (none
in the IEEE-aware model, which the entire output vector consists of); the
division by (end - start) is not guarded against an empty window. -/
theorem C10_sma_unguarded_empty_window (a : AnalysisSeries) (window : Nat)
    (hw : window ≤ 1) :
    (a.sma_ieee window).length = a.sigma_list.length
    ∧ a.sma_ieee window = List.replicate a.sigma_list.length none := by
  have hhalf : window / 2 = 0 := by omega
  have hmem : ∀ x ∈ a.sma_ieee window, x = (none : Option ℚ) := by
    intro x hx
    rw [AnalysisSeries.sma_ieee] at hx
    simp only [hhalf, List.mem_map, List.mem_range] at hx
    obtain ⟨i, hi, hfx⟩ := hx
    have hs : smaStart 0 i = i := by
      unfold smaStart
      split <;> omega
    have he : smaEnd 0 a.sigma_list.length i = i := by
      unfold smaEnd
      split <;> omega
    rw [hs, he] at hfx
    simp at hfx
    exact hfx.symm
  have hlen : (a.sma_ieee window).length = a.sigma_list.length := by
    simp [AnalysisSeries.sma_ieee]
  exact ⟨hlen, List.eq_replicate_iff.2 ⟨hlen, hmem⟩⟩

/-- Claim C10, witness: window 1 over the three-element series [4, 7, 9]
yields a vector of three NaN entries. -/
theorem C10_witness :
    ((AnalysisSeries.mk [4, 7, 9]).sma_ieee 1).length
        = (AnalysisSeries.mk [4, 7, 9]).sigma_list.length
    ∧ (AnalysisSeries.mk [4, 7, 9]).sma_ieee 1
        = List.replicate (AnalysisSeries.mk [4, 7, 9]).sigma_list.length none :=
  C10_sma_unguarded_empty_window (AnalysisSeries.mk [4, 7, 9]) 1 (by decide)
